import Mathlib

/-!
Verification development for the LinkedIn profile scraper (`src/index.ts`).

The TypeScript source is shallowly embedded: pure fragments (the date-range
split inside the extraction callbacks, the request-interception handler, the
duration normalization) become Lean functions over `String`/`Option`, and the
stateful browser-lifecycle methods (`close`, `createPage`, `checkIfLoggedIn`,
`run`) become explicit state-passing functions over a small state type, with
the outcomes of external calls (Puppeteer, the network, `tree-kill`) supplied
by an oracle record so that every control-flow path of the source can be
examined.  JavaScript quirks that matter (falsiness of `null`, `undefined`
and the empty string; promise settle-once semantics; `await` re-raising a
rejection inside a `catch` block) are modelled explicitly.
-/

namespace LinkedInScraper

/-! ## JavaScript string primitives -/

/-- JavaScript truthiness of a nullable string: `null`, `undefined` and `""`
are falsy, every other string is truthy. -/
def jsTruthyS : Option String → Bool
  | none => false
  | some s => s != ""

/-- The `x || null` idiom applied to a nullable string: a falsy value (absent
or empty) collapses to `null`. -/
def jsOrNull (s : Option String) : Option String :=
  match s with
  | none => none
  | some s => if s = "" then none else some s

/-- `String.prototype.split` with a single-character separator, on the
character list.  As in JavaScript, splitting the empty string yields `[""]`
and a trailing separator yields a trailing empty segment. -/
def splitOnChar (sep : Char) : List Char → List (List Char)
  | [] => [[]]
  | c :: rest =>
    let r := splitOnChar sep rest
    if c = sep then [] :: r
    else
      match r with
      | [] => [[c]]
      | h :: t => (c :: h) :: t

/-- `s.split(sep)` for a one-character separator. -/
def jsSplit (s : String) (sep : Char) : List String :=
  (splitOnChar sep s.data).map String.mk

/-- Whitespace test used by `String.prototype.trim`. -/
def jsIsWs (c : Char) : Bool :=
  c == ' ' || c == '\t' || c == '\n' || c == '\r'

/-- `s.trim()`: strip leading and trailing whitespace. -/
def jsTrim (s : String) : String :=
  String.mk (((s.data.dropWhile jsIsWs).reverse.dropWhile jsIsWs).reverse)

/-- `s.toLowerCase()` (ASCII range, which is all the source compares). -/
def jsToLower (s : String) : String :=
  String.mk (s.data.map Char.toLower)

/-- Boolean prefix test on character lists. -/
def listIsPrefix : List Char → List Char → Bool
  | [], _ => true
  | _ :: _, [] => false
  | a :: as, b :: bs => a == b && listIsPrefix as bs

/-- Boolean contiguous-substring test on character lists. -/
def listIsInfix (pat : List Char) (l : List Char) : Bool :=
  match l with
  | [] => listIsPrefix pat []
  | _ :: rest => listIsPrefix pat l || listIsInfix pat rest

/-- `s.includes(pat)`. -/
def jsIncludes (s pat : String) : Bool :=
  listIsInfix pat.data s.data

/-- `s.endsWith(suffix)`. -/
def jsEndsWith (s sfx : String) : Bool :=
  listIsPrefix sfx.data.reverse s.data.reverse

/-! ## Date-range extraction (src/index.ts lines 644-652 and 772-779)

The experience and volunteer-experience extraction callbacks contain the
identical fragment

```js
const startDatePart = dateRangeText?.split('–')[0] || null;
const startDate = startDatePart?.trim() || null;
const endDatePart = dateRangeText?.split('–')[1] || null;
const endDateIsPresent = endDatePart?.trim().toLowerCase() === 'present' || false;
const endDate = (endDatePart && !endDateIsPresent) ? endDatePart.trim() : 'Present';
```
-/

/-- The date-related fields of a raw experience / volunteer-experience
record: `startDate` may be `null`, `endDate` is always assigned a string,
and `endDateIsPresent` is the open-ended flag. -/
structure RawDateRangeFields where
  startDate : Option String
  endDate : String
  endDateIsPresent : Bool
deriving DecidableEq, Repr

/-- `dateRangeText?.split('–')[i] || null`: segment `i` of the en-dash
split, with JavaScript optional chaining (absent text propagates) and the
`|| null` collapse of a missing index or empty segment. -/
def dateRangeSeg (dateRangeText : Option String) (i : Nat) : Option String :=
  match dateRangeText with
  | none => none
  | some s => jsOrNull ((jsSplit s '–').get? i)

/-- The date-range fragment of the extraction callbacks, translated
line by line. -/
def extractDateRangeFields (dateRangeText : Option String) : RawDateRangeFields :=
  let startDatePart := dateRangeSeg dateRangeText 0
  let startDate := jsOrNull (startDatePart.map jsTrim)
  let endDatePart := dateRangeSeg dateRangeText 1
  let endDateIsPresent :=
    match endDatePart with
    | some s => jsToLower (jsTrim s) == "present"
    | none => false
  let endDate :=
    match endDatePart with
    | some s => if endDateIsPresent then "Present" else jsTrim s
    | none => "Present"
  { startDate := startDate, endDate := endDate, endDateIsPresent := endDateIsPresent }

example :
    extractDateRangeFields (some "Jan 2018 – Present") =
      { startDate := some "Jan 2018", endDate := "Present", endDateIsPresent := true } := by
  decide

example :
    extractDateRangeFields (some "Jan 2018 – Mar 2019") =
      { startDate := some "Jan 2018", endDate := "Mar 2019", endDateIsPresent := false } := by
  decide

example :
    extractDateRangeFields (some "Jan 2018") =
      { startDate := some "Jan 2018", endDate := "Present", endDateIsPresent := false } := by
  decide

/-! ## Request interception (src/index.ts lines 296-343)

`createPage` installs this request handler:

```js
const blockedResources = ['image', 'media', 'font', 'texttrack', 'object',
                          'beacon', 'csp_report', 'imageset'];
const blockedResourcesByHost = ['script', 'xhr', 'fetch', 'document']
page.on('request', (req) => {
  if (blockedResources.includes(req.resourceType())) { return req.abort() }
  const hostname = getHostname(req.url());
  if (blockedResourcesByHost.includes(req.resourceType()) && hostname
      && blockedHosts[hostname] === true) { return req.abort(); }
  return req.continue()
})
```

`getHostname` lives in `./utils`, outside the provided sources; the handler
is therefore modelled over the nullable hostname it returned, and the
blocked-hosts mapping (`./blocked-hosts`, also external) over a boolean
lookup function.
-/

/-- Resource types aborted outright; note `stylesheet` is deliberately not
in this list. -/
def blockedResources : List String :=
  ["image", "media", "font", "texttrack", "object", "beacon", "csp_report", "imageset"]

/-- Resource types that are aborted only for blocklisted hostnames. -/
def blockedResourcesByHost : List String :=
  ["script", "xhr", "fetch", "document"]

/-- Outcome of the interception handler for one request. -/
inductive ReqAction where
  | abort
  | cont
deriving DecidableEq, Repr

/-- The `page.on('request', ...)` handler.  `hostname` is the value
`getHostname(req.url())` returned (`none` for `null`); `blockedHosts` is the
mapping from `getBlockedHosts()`.  `hostname && blockedHosts[hostname] === true`
is falsy for a `null` or empty hostname. -/
def onRequest (blockedHosts : String → Bool) (resourceType : String)
    (hostname : Option String) : ReqAction :=
  if blockedResources.contains resourceType then .abort
  else if blockedResourcesByHost.contains resourceType && jsTruthyS hostname &&
      (match hostname with | some h => blockedHosts h | none => false) then .abort
  else .cont

/-! ## Date utilities and duration normalization

`formatDate` and `getDurationInDays` are imported from `./utils`, which is
not among the provided sources, so they are modelled from the spec.  The
locale-specific parsing of a date string into a calendar day is kept
abstract as a `parseDate : String → Option Nat` parameter (a day number, or
`none` for unparseable text); dates are compared and subtracted as day
numbers, which is all "whole days between two dates" needs. -/

/-- Modelled from the spec: `formatDate` from `./utils` (not under `src/`).
Per the spec, date utilities parse locale date strings into calendar dates,
unparseable text resolves to null, and open-ended ranges are computed
"against the current date at call time"; accordingly the sentinel
`"Present"` resolves to the current day and any other string resolves to
whatever the locale parser gives.  The result is the calendar day the
formatted date denotes (`none` when the input is null or unparseable). -/
def formatDate (parseDate : String → Option Nat) (today : Nat) :
    Option String → Option Nat
  | none => none
  | some s => if s = "Present" then some today else parseDate s

/-- Modelled from the spec: `getDurationInDays` from `./utils` (not under
`src/`).  Whole days between the two bounds when both resolve and the end
does not precede the start; `none` (never an exception, never a negative
number) otherwise. -/
def getDurationInDays : Option Nat → Option Nat → Option Int
  | some s, some e => if s ≤ e then some ((e : Int) - (s : Int)) else none
  | _, _ => none

/-- The `durationInDays` computation of experience normalization
(src/index.ts lines 675-681):

```js
const startDate = formatDate(rawExperience.startDate);
const endDate = formatDate(rawExperience.endDate) || null;
const endDateIsPresent = rawExperience.endDateIsPresent;
const durationInDaysWithEndDate = (startDate && endDate && !endDateIsPresent)
  ? getDurationInDays(startDate, endDate) : null
const durationInDaysForPresentDate = (endDateIsPresent && startDate)
  ? getDurationInDays(startDate, new Date()) : null
const durationInDays = endDateIsPresent
  ? durationInDaysForPresentDate : durationInDaysWithEndDate;
```

A resolved date is truthy and an unresolved one is `null`, so the
JavaScript truthiness tests become `Option.isSome`. -/
def experienceDurationInDays (parseDate : String → Option Nat) (today : Nat)
    (rawStartDate rawEndDate : Option String) (endDateIsPresent : Bool) : Option Int :=
  let startDate := formatDate parseDate today rawStartDate
  let endDate := formatDate parseDate today rawEndDate
  let durationInDaysWithEndDate :=
    if startDate.isSome && endDate.isSome && !endDateIsPresent then
      getDurationInDays startDate endDate
    else none
  let durationInDaysForPresentDate :=
    if endDateIsPresent && startDate.isSome then
      getDurationInDays startDate (some today)
    else none
  if endDateIsPresent then durationInDaysForPresentDate else durationInDaysWithEndDate

/-- The `durationInDays` computation of education normalization
(src/index.ts lines 742-752): `getDurationInDays(formatDate(start), formatDate(end))`
with no special handling of open-ended ranges. -/
def educationDurationInDays (parseDate : String → Option Nat) (today : Nat)
    (rawStartDate rawEndDate : Option String) : Option Int :=
  getDurationInDays (formatDate parseDate today rawStartDate)
    (formatDate parseDate today rawEndDate)

/-- The `durationInDays` computation of volunteer-experience normalization
(src/index.ts lines 800-810), identical in shape to the education one: the
open-ended flag is not consulted, the literal `endDate` string (which is
`"Present"` for open-ended records) is formatted and used as the end bound. -/
def volunteerDurationInDays (parseDate : String → Option Nat) (today : Nat)
    (rawStartDate rawEndDate : Option String) : Option Int :=
  getDurationInDays (formatDate parseDate today rawStartDate)
    (formatDate parseDate today rawEndDate)

/-! ## Browser-lifecycle state machine

The scraper instance's only mutable field is `private browser: Browser | null`
(plus, in the outside world, the liveness of the browser OS process).  The
lifecycle methods are embedded as functions from this state; the outcomes of
the external calls they make (Puppeteer page/browser operations, navigation,
`tree-kill`) are supplied by a `World` oracle, and every externally visible
action is recorded in an event trace. -/

/-- The scraper's state: the `this.browser` handle (carrying the browser
process pid when set), whether the browser OS process is actually live, and
a counter supplying ids for newly created pages. -/
structure SimState where
  browser : Option Nat
  processLive : Bool
  nextPage : Nat
deriving DecidableEq, Repr

/-- The errors the embedded methods can raise. -/
inductive JsError where
  | browserNotSet
  | noProfileUrl
  | notLinkedInUrl
  | launchFailed
  | newPageFailed
  | navFailed
  | sessionExpired
  | extractFailed
  | pageCloseFailed
  | browserCloseFailed
deriving DecidableEq, Repr

deriving instance DecidableEq for Except

/-- Externally visible actions, in program order. -/
inductive Ev where
  | launch (ok : Bool)
  | newPage (id : Nat)
  | newPageFail
  | closeFirstPage
  | goto (ok : Bool)
  | extractEv (ok : Bool)
  | pageClose (id : Nat) (ok : Bool)
  | browserClose (ok : Bool)
  | treeKillEv (pid : Nat) (ok : Bool)
deriving DecidableEq, Repr

/-- Outcomes of the external calls, fixed per call kind. -/
structure World where
  launchOk : Bool
  launchPid : Nat
  newPageOk : Bool
  loginNavOk : Bool
  loginFinalUrl : String
  profileNavOk : Bool
  extractOk : Bool
  pageCloseOk : Bool
  browserCloseOk : Bool
  killOk : Bool
deriving Repr

/-- Result of one embedded method call: the state afterwards, the value or
raised error, and the trace of external actions performed. -/
structure StepOut (α : Type) where
  st : SimState
  res : Except JsError α
  tr : List Ev
deriving Repr

/-- `close(page?)` (src/index.ts lines 416-460).  The method wraps an async
executor in a `new Promise`; a promise settles once, so the returned outcome
is the **first** `resolve`/`reject` reached.  Key consequences modelled
faithfully:
* a failing `page.close()` rejects, but execution falls through and the
  browser teardown still runs;
* `this.browser` is **never** reset to `null`;
* `treeKill`'s callback only runs after the executor's final synchronous
  `return resolve()`, so a kill failure's `reject` never decides the
  outcome — `close` resolves even when the kill fails;
* the kill is only attempted when `browser.close()` succeeded and the pid is
  truthy (non-zero). -/
def close (st : SimState) (page : Option Nat) (w : World) : StepOut Unit :=
  let pageSettle : Option JsError :=
    match page with
    | some _ => if w.pageCloseOk then none else some .pageCloseFailed
    | none => none
  let pageTr : List Ev :=
    match page with
    | some p => [.pageClose p w.pageCloseOk]
    | none => []
  let browserSettle : Option JsError :=
    match st.browser with
    | some _ => if w.browserCloseOk then none else some .browserCloseFailed
    | none => none
  let browserTr : List Ev :=
    match st.browser with
    | some pid =>
      if w.browserCloseOk then
        .browserClose true :: (if pid ≠ 0 then [.treeKillEv pid w.killOk] else [])
      else [.browserClose false]
    | none => []
  let liveAfter : Bool :=
    match st.browser with
    | some _ => if w.browserCloseOk then false else st.processLive
    | none => st.processLive
  let res : Except JsError Unit :=
    match pageSettle with
    | some e => .error e
    | none =>
      match browserSettle with
      | some e => .error e
      | none => .ok ()
  ⟨{ st with processLive := liveAfter }, res, pageTr ++ browserTr⟩

/-- `createPage` (src/index.ts lines 289-374): requires `this.browser`,
creates a page (which needs a live browser process), closes the pre-existing
first tab and configures the page; on any failure in the `try` block it
performs `await this.close()` and re-raises — and because the `await` sits
before `throw err`, a rejection from `close` replaces the original error. -/
def createPage (st : SimState) (w : World) : StepOut Nat :=
  match st.browser with
  | none => ⟨st, .error .browserNotSet, []⟩
  | some _ =>
    if w.newPageOk && st.processLive then
      let p := st.nextPage
      ⟨{ st with nextPage := st.nextPage + 1 }, .ok p, [.newPage p, .closeFirstPage]⟩
    else
      let c := close st none w
      let err : JsError :=
        match c.res with
        | .error e => e
        | .ok _ => .newPageFailed
      ⟨c.st, .error err, .newPageFail :: c.tr⟩

/-- `checkIfLoggedIn` (src/index.ts lines 465-493): create a page, navigate
to the login URL, read the final URL, close the page, then raise
`SessionExpired` when the final URL still ends in `/login`.  Note the page
is closed only on the paths that reach the `page.close()` line; a navigation
failure propagates with the page still open. -/
def checkIfLoggedIn (st : SimState) (w : World) : StepOut Unit :=
  let c := createPage st w
  match c.res with
  | .error e => ⟨c.st, .error e, c.tr⟩
  | .ok p =>
    if w.loginNavOk then
      let url := w.loginFinalUrl
      let isLoggedIn := !(jsEndsWith url "/login")
      if w.pageCloseOk then
        if isLoggedIn then
          ⟨c.st, .ok (), c.tr ++ [.goto true, .pageClose p true]⟩
        else
          ⟨c.st, .error .sessionExpired, c.tr ++ [.goto true, .pageClose p true]⟩
      else
        ⟨c.st, .error .pageCloseFailed, c.tr ++ [.goto true, .pageClose p false]⟩
    else
      ⟨c.st, .error .navFailed, c.tr ++ [.goto false]⟩

/-- `setup` (src/index.ts lines 212-284): launch the browser (setting
`this.browser` and bringing the process up), then verify the session; any
failure triggers `await this.close()` before the re-raise, with the same
error-replacement behaviour as the other catch blocks. -/
def setup (st : SimState) (w : World) : StepOut Unit :=
  if w.launchOk then
    let st1 : SimState := { st with browser := some w.launchPid, processLive := true }
    let k := checkIfLoggedIn st1 w
    match k.res with
    | .ok _ => ⟨k.st, .ok (), .launch true :: k.tr⟩
    | .error e =>
      let c := close k.st none w
      let err : JsError := match c.res with | .error e2 => e2 | .ok _ => e
      ⟨c.st, .error err, .launch true :: (k.tr ++ c.tr)⟩
  else
    let c := close st none w
    let err : JsError := match c.res with | .error e2 => e2 | .ok _ => .launchFailed
    ⟨c.st, .error err, .launch false :: c.tr⟩

/-- The catch block of `run` (src/index.ts lines 857-865):
`await this.close(); throw err` — full teardown of the browsing context, and
a rejection from `close` replaces the in-flight error. -/
def runCatch (st : SimState) (e : JsError) (tr : List Ev) (w : World) : StepOut Unit :=
  let c := close st none w
  let err : JsError := match c.res with | .error e2 => e2 | .ok _ => e
  ⟨c.st, .error err, tr ++ c.tr⟩

/-- The `try` block of `run` (src/index.ts lines 515-865): create the page,
navigate, load/extract content, then on success either tear everything down
(`keepAlive=false`, via `this.close(page)`) or close just the page
(`keepAlive=true`).  A failure at any stage lands in `runCatch`. -/
def runTry (keepAlive : Bool) (st : SimState) (w : World) : StepOut Unit :=
  let c := createPage st w
  match c.res with
  | .error e => runCatch c.st e c.tr w
  | .ok p =>
    if w.profileNavOk then
      if w.extractOk then
        let tr1 := c.tr ++ [.goto true, .extractEv true]
        if keepAlive then
          if w.pageCloseOk then
            ⟨c.st, .ok (), tr1 ++ [.pageClose p true]⟩
          else
            runCatch c.st .pageCloseFailed (tr1 ++ [.pageClose p false]) w
        else
          let cl := close c.st (some p) w
          match cl.res with
          | .ok _ => ⟨cl.st, .ok (), tr1 ++ cl.tr⟩
          | .error e => runCatch cl.st e (tr1 ++ cl.tr) w
      else
        runCatch c.st .extractFailed (c.tr ++ [.goto true, .extractEv false]) w
    else
      runCatch c.st .navFailed (c.tr ++ [.goto false]) w

/-- `run(profileUrl)` (src/index.ts lines 498-866): the three fail-fast
precondition checks, then the pipeline. -/
def run (keepAlive : Bool) (st : SimState) (profileUrl : String) (w : World) :
    StepOut Unit :=
  if st.browser = none then ⟨st, .error .browserNotSet, []⟩
  else if profileUrl = "" then ⟨st, .error .noProfileUrl, []⟩
  else if !(jsIncludes profileUrl "linkedin.com/") then ⟨st, .error .notLinkedInUrl, []⟩
  else runTry keepAlive st w

/-! ## autoScroll (src/index.ts lines 146-163)

```js
var totalHeight = 0;
var distance = 500;
var timer = setInterval(() => {
  var scrollHeight = document.body.scrollHeight;
  window.scrollBy(0, distance);
  totalHeight += distance;
  if (totalHeight >= scrollHeight) { clearInterval(timer); resolve(); }
}, 100);
```

The document's scroll height is re-read at the start of every tick, so it is
modelled as a function of the tick index.  The loop is embedded with a fuel
argument; `some tick` means the interval was cleared at that tick. -/

/-- One run of the `setInterval` loop: at tick `t` (0-based) the height
`heights t` is read, `totalHeight` grows by 500, and the loop stops when
`totalHeight` has reached that freshly read height. -/
def autoScroll (heights : Nat → Nat) : Nat → Nat → Nat → Option Nat
  | _, _, 0 => none
  | totalHeight, tick, fuel + 1 =>
    let scrollHeight := heights tick
    let newTotal := totalHeight + 500
    if scrollHeight ≤ newTotal then some tick
    else autoScroll heights newTotal (tick + 1) fuel

/-! ## Claim C1: consistency of `endDate` and `endDateIsPresent` -/

/-- C1 counterexample: date-range text with no en-dash separator.  The
extraction code produces `endDateIsPresent = false` **and**
`endDate = "Present"`: the default branch of
`(endDatePart && !endDateIsPresent) ? endDatePart.trim() : 'Present'` fires
whenever the end part is absent, so a record with `endDateIsPresent = false`
can carry the literal `"Present"` sentinel, refuting the claimed mutual
consistency "including text with no en-dash separator". -/
theorem c1_counterexample :
    (extractDateRangeFields (some "Jan 2018")).endDateIsPresent = false ∧
    (extractDateRangeFields (some "Jan 2018")).endDate = "Present" := by
  decide

/-- C1 (amended): `endDateIsPresent` is true exactly when the en-dash
split's end part exists and its trimmed, lowercased text equals `"present"`,
in which case `endDate` is the sentinel `"Present"`; when the flag is false
and an end part exists, `endDate` is the trimmed end part and never the
sentinel; but when the end part is absent (no en-dash separator, or an empty
end segment), `endDate` defaults to the sentinel `"Present"` even though
`endDateIsPresent` is false. -/
theorem c1_amended (t : Option String) :
    ((extractDateRangeFields t).endDateIsPresent = true ↔
      ∃ s, dateRangeSeg t 1 = some s ∧ jsToLower (jsTrim s) = "present") ∧
    ((extractDateRangeFields t).endDateIsPresent = true →
      (extractDateRangeFields t).endDate = "Present") ∧
    (∀ s, dateRangeSeg t 1 = some s →
      (extractDateRangeFields t).endDateIsPresent = false →
      (extractDateRangeFields t).endDate = jsTrim s ∧
      (extractDateRangeFields t).endDate ≠ "Present") ∧
    (dateRangeSeg t 1 = none →
      (extractDateRangeFields t).endDateIsPresent = false ∧
      (extractDateRangeFields t).endDate = "Present") := by
  unfold extractDateRangeFields
  cases h : dateRangeSeg t 1 with
  | none =>
    simp
  | some s =>
    by_cases hp : jsToLower (jsTrim s) = "present"
    · simp [hp]
    · simp [hp]
      intro he
      exact hp (by rw [he]; decide)

/-- C1 witness: a closed record with a real end date exercises the amended
theorem's hypotheses. -/
theorem c1_witness :
    dateRangeSeg (some "Jan 2018 – Mar 2019") 1 = some " Mar 2019" ∧
    (extractDateRangeFields (some "Jan 2018 – Mar 2019")).endDateIsPresent = false ∧
    (extractDateRangeFields (some "Jan 2018 – Mar 2019")).endDate = jsTrim " Mar 2019" ∧
    (extractDateRangeFields (some "Jan 2018 – Mar 2019")).endDate ≠ "Present" := by
  refine ⟨by decide, by decide, ?_⟩
  exact (c1_amended (some "Jan 2018 – Mar 2019")).2.2.1 " Mar 2019" (by decide) (by decide)

/-! ## Claim C2: request interception -/

/-- C2: a request is aborted iff its resource type is one of the eight
outright-blocked types, or it is a script/xhr/fetch/document request whose
hostname maps to `true` in the blocked-hosts mapping; stylesheet requests
are never aborted and every other request is continued (the handler is
two-valued, so the iff covers it).  The hypothesis records that the
hostname extractor yields `null` rather than an empty hostname. -/
theorem c2_request_interception (blockedHosts : String → Bool)
    (resourceType : String) (hostname : Option String)
    (hne : hostname ≠ some "") :
    (onRequest blockedHosts resourceType hostname = .abort ↔
      (resourceType ∈ blockedResources ∨
        (resourceType ∈ blockedResourcesByHost ∧
          ∃ h, hostname = some h ∧ blockedHosts h = true))) ∧
    onRequest blockedHosts "stylesheet" hostname = .cont := by
  constructor
  · cases hostname with
    | none =>
      by_cases h1 : resourceType ∈ blockedResources
      · simp [onRequest, jsTruthyS, h1, List.contains, List.elem_iff]
      · simp [onRequest, jsTruthyS, h1, List.contains, List.elem_iff]
    | some h =>
      have hh : h ≠ "" := fun he => hne (by rw [he])
      by_cases h1 : resourceType ∈ blockedResources
      · simp [onRequest, jsTruthyS, h1, List.contains, List.elem_iff]
      · by_cases h2 : resourceType ∈ blockedResourcesByHost
        · by_cases h3 : blockedHosts h = true
          · simp [onRequest, jsTruthyS, h1, h2, h3, hh, List.contains, List.elem_iff]
          · simp [onRequest, jsTruthyS, h1, h2, h3, hh, List.contains, List.elem_iff]
        · simp [onRequest, jsTruthyS, h1, h2, hh, List.contains, List.elem_iff]
  · cases hostname with
    | none => simp [onRequest, jsTruthyS, blockedResources, blockedResourcesByHost]
    | some h => simp [onRequest, jsTruthyS, blockedResources, blockedResourcesByHost]

/-- One of the hardcoded blocklist overrides, as a lookup function. -/
def gtagBlocked : String → Bool := fun h => h == "www.googletagmanager.com"

/-- C2 witness: a script request to a blocklisted tracker host. -/
theorem c2_witness :
    ((some "www.googletagmanager.com" : Option String) ≠ some "") ∧
    ((onRequest gtagBlocked "script" (some "www.googletagmanager.com") = .abort ↔
      ("script" ∈ blockedResources ∨
        ("script" ∈ blockedResourcesByHost ∧
          ∃ h, (some "www.googletagmanager.com" : Option String) = some h ∧
            gtagBlocked h = true))) ∧
      onRequest gtagBlocked "stylesheet" (some "www.googletagmanager.com") = .cont) :=
  ⟨by decide,
    c2_request_interception gtagBlocked "script" (some "www.googletagmanager.com") (by decide)⟩

/-! ## Claim C6: `durationInDays` is never negative -/

/-- The modelled duration utility never yields a negative number. -/
theorem getDurationInDays_nonneg (a b : Option Nat) (d : Int)
    (h : getDurationInDays a b = some d) : 0 ≤ d := by
  cases a with
  | none => simp [getDurationInDays] at h
  | some s =>
    cases b with
    | none => simp [getDurationInDays] at h
    | some e =>
      simp only [getDurationInDays] at h
      by_cases hle : s ≤ e
      · rw [if_pos hle] at h
        have hd : ((e : Int) - (s : Int)) = d := Option.some.inj h
        omega
      · rw [if_neg hle] at h
        exact absurd h (by simp)

/-- C6: across experience, education and volunteer normalization,
`durationInDays` is never negative; both bounds resolving with the end not
before the start gives the whole-day difference; an open-ended experience
uses the current date as the end bound; an unresolved bound, or an end date
preceding the start date, gives `null` (the normalizers are total functions,
so no exception is possible). -/
theorem c6_duration (parseDate : String → Option Nat) (today : Nat)
    (rawStart rawEnd : Option String) (p : Bool) :
    (∀ d, experienceDurationInDays parseDate today rawStart rawEnd p = some d → 0 ≤ d) ∧
    (∀ d, educationDurationInDays parseDate today rawStart rawEnd = some d → 0 ≤ d) ∧
    (∀ d, volunteerDurationInDays parseDate today rawStart rawEnd = some d → 0 ≤ d) ∧
    (∀ s e, formatDate parseDate today rawStart = some s →
      formatDate parseDate today rawEnd = some e → s ≤ e →
      educationDurationInDays parseDate today rawStart rawEnd = some ((e : Int) - (s : Int)) ∧
      volunteerDurationInDays parseDate today rawStart rawEnd = some ((e : Int) - (s : Int)) ∧
      (p = false →
        experienceDurationInDays parseDate today rawStart rawEnd p =
          some ((e : Int) - (s : Int)))) ∧
    (p = true → experienceDurationInDays parseDate today rawStart rawEnd p =
      getDurationInDays (formatDate parseDate today rawStart) (some today)) ∧
    (formatDate parseDate today rawStart = none →
      experienceDurationInDays parseDate today rawStart rawEnd p = none ∧
      educationDurationInDays parseDate today rawStart rawEnd = none ∧
      volunteerDurationInDays parseDate today rawStart rawEnd = none) ∧
    (formatDate parseDate today rawEnd = none → p = false →
      experienceDurationInDays parseDate today rawStart rawEnd p = none ∧
      educationDurationInDays parseDate today rawStart rawEnd = none ∧
      volunteerDurationInDays parseDate today rawStart rawEnd = none) ∧
    (∀ s e, formatDate parseDate today rawStart = some s →
      formatDate parseDate today rawEnd = some e → e < s →
      educationDurationInDays parseDate today rawStart rawEnd = none ∧
      volunteerDurationInDays parseDate today rawStart rawEnd = none ∧
      (p = false → experienceDurationInDays parseDate today rawStart rawEnd p = none)) := by
  refine ⟨?_, ?_, ?_, ?_, ?_, ?_, ?_, ?_⟩
  · intro d hd
    simp only [experienceDurationInDays] at hd
    split at hd <;> split at hd
    · exact getDurationInDays_nonneg _ _ d hd
    · exact absurd hd (by simp)
    · exact getDurationInDays_nonneg _ _ d hd
    · exact absurd hd (by simp)
  · exact fun d hd => getDurationInDays_nonneg _ _ d hd
  · exact fun d hd => getDurationInDays_nonneg _ _ d hd
  · intro s e hs he hle
    refine ⟨?_, ?_, ?_⟩
    · simp [educationDurationInDays, hs, he, getDurationInDays, hle]
    · simp [volunteerDurationInDays, hs, he, getDurationInDays, hle]
    · intro hp
      simp [experienceDurationInDays, hp, hs, he, getDurationInDays, hle]
  · intro hp
    simp only [experienceDurationInDays, hp, if_true, Bool.true_and]
    cases hfs : formatDate parseDate today rawStart with
    | none => simp [hfs, getDurationInDays]
    | some s => simp [hfs]
  · intro hs
    refine ⟨?_, ?_, ?_⟩
    · cases p <;> simp [experienceDurationInDays, hs, getDurationInDays]
    · simp [educationDurationInDays, hs, getDurationInDays]
    · simp [volunteerDurationInDays, hs, getDurationInDays]
  · intro he hp
    refine ⟨?_, ?_, ?_⟩
    · cases hfs : formatDate parseDate today rawStart <;>
        simp [experienceDurationInDays, hp, hfs, he, getDurationInDays]
    · cases hfs : formatDate parseDate today rawStart <;>
        simp [educationDurationInDays, hfs, he, getDurationInDays]
    · cases hfs : formatDate parseDate today rawStart <;>
        simp [volunteerDurationInDays, hfs, he, getDurationInDays]
  · intro s e hs he hlt
    have hnle : ¬ (s ≤ e) := by omega
    refine ⟨?_, ?_, ?_⟩
    · simp [educationDurationInDays, hs, he, getDurationInDays, hnle]
    · simp [volunteerDurationInDays, hs, he, getDurationInDays, hnle]
    · intro hp
      simp [experienceDurationInDays, hp, hs, he, getDurationInDays, hnle]

/-- Locale date parser used by the C6 witness: one known date string. -/
def parseDateW : String → Option Nat := fun s => if s = "Jan 2018" then some 100 else none

/-- C6 witness: a record from "Jan 2018" to the sentinel "Present" with the
current day 250; both bounds resolve (the sentinel to the current date) and
the education/volunteer durations are the 150-day difference. -/
theorem c6_witness :
    formatDate parseDateW 250 (some "Jan 2018") = some 100 ∧
    formatDate parseDateW 250 (some "Present") = some 250 ∧
    (100 : Nat) ≤ 250 ∧
    educationDurationInDays parseDateW 250 (some "Jan 2018") (some "Present") =
      some (((250 : Nat) : Int) - ((100 : Nat) : Int)) ∧
    volunteerDurationInDays parseDateW 250 (some "Jan 2018") (some "Present") =
      some (((250 : Nat) : Int) - ((100 : Nat) : Int)) := by
  have h := (c6_duration parseDateW 250 (some "Jan 2018") (some "Present") true).2.2.2.1
    100 250 (by decide) (by decide) (by omega)
  exact ⟨by decide, by decide, by omega, h.1, h.2.1⟩

/-! ## Claim C8: `close` is idempotent and safe on the empty state -/

/-- A world in which every external call succeeds. -/
def wAllOk : World :=
  ⟨true, 7, true, true, "https://www.linkedin.com/feed/", true, true, true, true, true⟩

/-- C8: `close` never mutates the browser handle, so calling it twice (same
page argument, same external outcomes) reaches the same state and the same
result as calling it once; and in a state where nothing was ever set up (no
browser, no page supplied) it returns successfully and leaves the state
untouched.  In this embedding a kill failure never surfaces — the
executor's final `resolve()` runs before `treeKill`'s callback can reject —
so the termination-failure carve-out of the claim is never even needed. -/
theorem c8_close_idempotent (st : SimState) (page : Option Nat) (w : World) :
    ((close st page w).st.browser = st.browser) ∧
    (close (close st page w).st page w).st = (close st page w).st ∧
    (close (close st page w).st page w).res = (close st page w).res ∧
    (st.browser = none → page = none →
      (close st page w).res = .ok () ∧ (close st page w).st = st) := by
  obtain ⟨b, live, np⟩ := st
  cases b <;> cases page <;>
    cases hpc : w.pageCloseOk <;> cases hbc : w.browserCloseOk <;>
      simp [close, hpc, hbc]

/-- C8 witness: closing on a never-set-up instance. -/
theorem c8_witness :
    ((⟨none, false, 0⟩ : SimState).browser = none) ∧
    (close ⟨none, false, 0⟩ none wAllOk).res = .ok () ∧
    (close ⟨none, false, 0⟩ none wAllOk).st = ⟨none, false, 0⟩ :=
  ⟨rfl, (c8_close_idempotent ⟨none, false, 0⟩ none wAllOk).2.2.2 rfl rfl⟩

/-! ## Claim C10: `close` never resets the browser handle -/

/-- C10: `close` leaves `this.browser` set, so after a successful teardown
(browser process no longer live) a later `run` still passes the
"Browser is not set" precondition check — the check reaches `runTry`, and
with a dead process the run then fails at page creation rather than at the
precondition, showing the check does not guarantee a live browsing
context. -/
theorem c10_browser_never_reset (st : SimState) (w w2 : World) (pid : Nat)
    (hb : st.browser = some pid) :
    ((close st none w).st.browser = some pid) ∧
    (w.browserCloseOk = true → (close st none w).st.processLive = false) ∧
    (∀ keepAlive url, url ≠ "" → jsIncludes url "linkedin.com/" = true →
      run keepAlive (close st none w).st url w2 = runTry keepAlive (close st none w).st w2) ∧
    (w.browserCloseOk = true → w2.browserCloseOk = true →
      ∀ keepAlive url, url ≠ "" → jsIncludes url "linkedin.com/" = true →
        (run keepAlive (close st none w).st url w2).res = .error .newPageFailed) := by
  obtain ⟨b, live, np⟩ := st
  obtain rfl : b = some pid := hb
  refine ⟨by simp [close], ?_, ?_, ?_⟩
  · intro hbc
    simp [close, hbc]
  · intro keepAlive url hu1 hu2
    rw [run, if_neg (by simp [close]), if_neg hu1, if_neg (by rw [hu2]; simp)]
  · intro hbc hbc2 keepAlive url hu1 hu2
    rw [run, if_neg (by simp [close]), if_neg hu1, if_neg (by rw [hu2]; simp)]
    simp [runTry, createPage, runCatch, close, hbc, hbc2]

/-- C10 witness. -/
theorem c10_witness :
    ((⟨some 7, true, 1⟩ : SimState).browser = some 7) ∧
    ((close ⟨some 7, true, 1⟩ none wAllOk).st.browser = some 7) ∧
    (close ⟨some 7, true, 1⟩ none wAllOk).st.processLive = false ∧
    (run false (close ⟨some 7, true, 1⟩ none wAllOk).st
      "https://www.linkedin.com/in/someone" wAllOk).res = .error .newPageFailed := by
  have h := c10_browser_never_reset ⟨some 7, true, 1⟩ wAllOk wAllOk 7 rfl
  exact ⟨rfl, h.1, h.2.1 rfl,
    h.2.2.2 rfl rfl false "https://www.linkedin.com/in/someone" (by decide) (by decide)⟩

/-! ## Claim C5: `run` fail-fast preconditions -/

/-- Helper: once the preconditions pass, the pipeline performs page
activity — the trace of `runTry` is never empty when a browser handle
exists. -/
theorem runTry_tr_ne_nil (keepAlive : Bool) (st : SimState) (w : World) (pid : Nat)
    (hb : st.browser = some pid) : (runTry keepAlive st w).tr ≠ [] := by
  rw [runTry]
  cases hcp : (w.newPageOk && st.processLive) with
  | false =>
    rw [createPage]
    simp only [hb, hcp]
    simp [runCatch]
  | true =>
    rw [createPage]
    simp only [hb, hcp, if_true]
    cases hnav : w.profileNavOk <;> cases hex : w.extractOk <;>
      cases keepAlive <;> cases hpc : w.pageCloseOk <;> cases hbc : w.browserCloseOk <;>
        simp [runCatch, close, hnav, hex, hpc, hbc, hb]

/-- C5: `run(profileUrl)` fails fast — with no page activity at all — when
and only when no browser handle exists (setup never ran), the URL is empty,
or the URL does not contain the substring "linkedin.com/"; in each case with
the corresponding error and untouched state, and otherwise the precondition
checks pass and the pipeline proceeds (page activity occurs). -/
theorem c5_preconditions (keepAlive : Bool) (st : SimState) (url : String) (w : World) :
    (st.browser = none → run keepAlive st url w = ⟨st, .error .browserNotSet, []⟩) ∧
    (st.browser ≠ none → url = "" →
      run keepAlive st url w = ⟨st, .error .noProfileUrl, []⟩) ∧
    (st.browser ≠ none → url ≠ "" → jsIncludes url "linkedin.com/" = false →
      run keepAlive st url w = ⟨st, .error .notLinkedInUrl, []⟩) ∧
    (st.browser ≠ none → url ≠ "" → jsIncludes url "linkedin.com/" = true →
      run keepAlive st url w = runTry keepAlive st w ∧
      (run keepAlive st url w).tr ≠ []) := by
  refine ⟨?_, ?_, ?_, ?_⟩
  · intro hb
    rw [run, if_pos hb]
  · intro hb hu
    rw [run, if_neg hb, if_pos hu]
  · intro hb hu hinc
    rw [run, if_neg hb, if_neg hu, if_pos (by rw [hinc]; rfl)]
  · intro hb hu hinc
    obtain ⟨pid, hpid⟩ := Option.ne_none_iff_exists'.mp hb
    have heq : run keepAlive st url w = runTry keepAlive st w := by
      rw [run, if_neg hb, if_neg hu, if_neg (by rw [hinc]; simp)]
    exact ⟨heq, heq ▸ runTry_tr_ne_nil keepAlive st w pid hpid⟩

/-- C5 witness: a set-up instance and a valid profile URL. -/
theorem c5_witness :
    ((⟨some 7, true, 1⟩ : SimState).browser ≠ none) ∧
    ("https://www.linkedin.com/in/someone" ≠ "") ∧
    jsIncludes "https://www.linkedin.com/in/someone" "linkedin.com/" = true ∧
    run false ⟨some 7, true, 1⟩ "https://www.linkedin.com/in/someone" wAllOk =
      runTry false ⟨some 7, true, 1⟩ wAllOk ∧
    (run false ⟨some 7, true, 1⟩ "https://www.linkedin.com/in/someone" wAllOk).tr ≠ [] :=
  ⟨by decide, by decide, by decide,
    (c5_preconditions false ⟨some 7, true, 1⟩ "https://www.linkedin.com/in/someone" wAllOk).2.2.2
      (by decide) (by decide) (by decide)⟩

/-! ## Claim C3: teardown on `run` failure -/

/-- C3 (amended): every exception of the pipeline after the precondition
checks triggers teardown of the whole browsing context — a `browser.close`
action appears in the trace — before the error propagates.  The stages that
can raise are exhaustively: page creation, navigation, content extraction,
the per-run page close on the success path (`await page.close()` under
`keepAlive=true`, or the page-close part of `await this.close(page)` under
`keepAlive=false`), and the teardown close of `this.close(page)` itself
under `keepAlive=false` — one conjunct per stage, in program order, covers
them all.  The propagated error is the original in-flight error when the
catch block's teardown close succeeds, but when that teardown close fails,
the teardown error is what reaches the caller, replacing the original error
(`await this.close()` sits before `throw err` in the catch block). -/
theorem c3_amended (keepAlive : Bool) (st : SimState) (url : String) (w : World) (pid : Nat)
    (hb : st.browser = some pid) (hl : st.processLive = true)
    (hu1 : url ≠ "") (hu2 : jsIncludes url "linkedin.com/" = true) :
    (w.newPageOk = false →
      Ev.browserClose w.browserCloseOk ∈ (run keepAlive st url w).tr ∧
      (run keepAlive st url w).res =
        .error (if w.browserCloseOk then .newPageFailed else .browserCloseFailed)) ∧
    (w.newPageOk = true → w.profileNavOk = false →
      Ev.browserClose w.browserCloseOk ∈ (run keepAlive st url w).tr ∧
      (run keepAlive st url w).res =
        .error (if w.browserCloseOk then .navFailed else .browserCloseFailed)) ∧
    (w.newPageOk = true → w.profileNavOk = true → w.extractOk = false →
      Ev.browserClose w.browserCloseOk ∈ (run keepAlive st url w).tr ∧
      (run keepAlive st url w).res =
        .error (if w.browserCloseOk then .extractFailed else .browserCloseFailed)) ∧
    (w.newPageOk = true → w.profileNavOk = true → w.extractOk = true →
      w.pageCloseOk = false →
      Ev.browserClose w.browserCloseOk ∈ (run keepAlive st url w).tr ∧
      (run keepAlive st url w).res =
        .error (if w.browserCloseOk then .pageCloseFailed else .browserCloseFailed)) ∧
    (w.newPageOk = true → w.profileNavOk = true → w.extractOk = true →
      w.pageCloseOk = true → w.browserCloseOk = false → keepAlive = false →
      Ev.browserClose false ∈ (run keepAlive st url w).tr ∧
      (run keepAlive st url w).res = .error .browserCloseFailed) := by
  obtain ⟨b, live, np⟩ := st
  obtain rfl : b = some pid := hb
  obtain rfl : live = true := hl
  have hrw : run keepAlive ⟨some pid, true, np⟩ url w = runTry keepAlive ⟨some pid, true, np⟩ w := by
    rw [run, if_neg (by simp), if_neg hu1, if_neg (by rw [hu2]; simp)]
  rw [hrw]
  refine ⟨?_, ?_, ?_, ?_, ?_⟩
  · intro hnp
    cases hbc : w.browserCloseOk <;>
      simp [runTry, createPage, runCatch, close, hnp, hbc]
  · intro hnp hnav
    cases hbc : w.browserCloseOk <;>
      simp [runTry, createPage, runCatch, close, hnp, hnav, hbc]
  · intro hnp hnav hex
    cases hbc : w.browserCloseOk <;>
      simp [runTry, createPage, runCatch, close, hnp, hnav, hex, hbc]
  · intro hnp hnav hex hpc
    cases keepAlive <;> cases hbc : w.browserCloseOk <;>
      simp [runTry, createPage, runCatch, close, hnp, hnav, hex, hpc, hbc]
  · intro hnp hnav hex hpc hbc hk
    subst hk
    simp [runTry, createPage, runCatch, close, hnp, hnav, hex, hpc, hbc]

/-- A world where profile navigation fails and the teardown `browser.close`
also fails. -/
def wNavAndCloseFail : World :=
  ⟨true, 7, true, true, "https://www.linkedin.com/feed/", false, true, true, false, true⟩

/-- C3 counterexample: navigation fails (original in-flight error) and the
teardown close fails too.  The error raised to the caller is the teardown
failure, not the original navigation error — refuting "the original error
takes priority". -/
theorem c3_counterexample :
    (run false ⟨some 7, true, 1⟩ "https://www.linkedin.com/in/someone" wNavAndCloseFail).res =
      .error .browserCloseFailed ∧
    JsError.browserCloseFailed ≠ JsError.navFailed := by
  refine ⟨?_, by decide⟩
  rfl

/-- C3 witness: with a succeeding teardown, the original navigation error is
the one propagated, and the browser teardown appears in the trace. -/
theorem c3_witness :
    Ev.browserClose true ∈
      (run false ⟨some 7, true, 1⟩ "https://www.linkedin.com/in/x"
        ⟨true, 7, true, true, "u", false, true, true, true, true⟩).tr ∧
    (run false ⟨some 7, true, 1⟩ "https://www.linkedin.com/in/x"
        ⟨true, 7, true, true, "u", false, true, true, true, true⟩).res =
      .error (if (⟨true, 7, true, true, "u", false, true, true, true, true⟩ : World).browserCloseOk
        then .navFailed else .browserCloseFailed) :=
  (c3_amended false ⟨some 7, true, 1⟩ "https://www.linkedin.com/in/x"
      ⟨true, 7, true, true, "u", false, true, true, true, true⟩ 7
      rfl rfl (by decide) (by decide)).2.1 rfl rfl

/-! ## Claim C4: session verification -/

/-- C4 (amended): the session is judged valid purely from the final URL
after navigating to the login endpoint — `SessionExpired` is raised iff the
final URL ends with "/login", success returned iff it does not — and on both
of those return paths the verification page has been closed beforehand; but
when the navigation itself fails, the error propagates with the page still
open (no page-close action for it in the trace). -/
theorem c4_amended (st : SimState) (w : World) (pid : Nat)
    (hb : st.browser = some pid) (hl : st.processLive = true)
    (hnp : w.newPageOk = true) (hnav : w.loginNavOk = true) (hpc : w.pageCloseOk = true) :
    ((checkIfLoggedIn st w).res = .error .sessionExpired ↔
      jsEndsWith w.loginFinalUrl "/login" = true) ∧
    ((checkIfLoggedIn st w).res = .ok () ↔
      jsEndsWith w.loginFinalUrl "/login" = false) ∧
    Ev.pageClose st.nextPage true ∈ (checkIfLoggedIn st w).tr := by
  obtain ⟨b, live, np⟩ := st
  obtain rfl : b = some pid := hb
  obtain rfl : live = true := hl
  cases he : jsEndsWith w.loginFinalUrl "/login" <;>
    simp [checkIfLoggedIn, createPage, hnp, hnav, hpc, he]

/-- A world where the login-page navigation fails. -/
def wLoginNavFail : World :=
  ⟨true, 7, true, false, "https://www.linkedin.com/login", true, true, true, true, true⟩

/-- C4 counterexample: when the navigation to the login endpoint fails, the
verification call raises the navigation error with the page it created
still open — the only actions performed are the page creation, the
first-tab close, and the failed navigation, with no close of the created
page — refuting "on every return path, including the failing one, the
verification page has been closed". -/
theorem c4_counterexample :
    (checkIfLoggedIn ⟨some 7, true, 1⟩ wLoginNavFail).res = .error .navFailed ∧
    (checkIfLoggedIn ⟨some 7, true, 1⟩ wLoginNavFail).tr =
      [.newPage 1, .closeFirstPage, .goto false] ∧
    Ev.pageClose 1 true ∉ (checkIfLoggedIn ⟨some 7, true, 1⟩ wLoginNavFail).tr ∧
    Ev.pageClose 1 false ∉ (checkIfLoggedIn ⟨some 7, true, 1⟩ wLoginNavFail).tr := by
  refine ⟨rfl, rfl, by decide, by decide⟩

/-- C4 witness: an expired session — the final URL stays on "/login" — is
reported as `SessionExpired` after the page close. -/
theorem c4_witness :
    ((checkIfLoggedIn ⟨some 7, true, 1⟩
        ⟨true, 7, true, true, "https://www.linkedin.com/login", true, true, true, true, true⟩).res =
      .error .sessionExpired ↔
      jsEndsWith "https://www.linkedin.com/login" "/login" = true) ∧
    Ev.pageClose 1 true ∈
      (checkIfLoggedIn ⟨some 7, true, 1⟩
        ⟨true, 7, true, true, "https://www.linkedin.com/login", true, true, true, true, true⟩).tr := by
  have h := c4_amended ⟨some 7, true, 1⟩
    ⟨true, 7, true, true, "https://www.linkedin.com/login", true, true, true, true, true⟩ 7
    rfl rfl rfl rfl rfl
  exact ⟨h.1, h.2.2⟩

/-! ## Claim C7: success-path teardown and `keepAlive` -/

/-- All external calls a `run` makes succeed. -/
def allOk (w : World) : Prop :=
  w.newPageOk = true ∧ w.profileNavOk = true ∧ w.extractOk = true ∧
    w.pageCloseOk = true ∧ w.browserCloseOk = true ∧ w.killOk = true

/-- A fully successful `keepAlive=true` run: only the per-run page is
closed, the browser handle and process liveness are untouched. -/
theorem runTry_keepAlive_allOk (st : SimState) (w : World) (pid : Nat)
    (hb : st.browser = some pid) (hl : st.processLive = true) (hw : allOk w) :
    runTry true st w =
      ⟨⟨some pid, true, st.nextPage + 1⟩, .ok (),
        [.newPage st.nextPage, .closeFirstPage, .goto true, .extractEv true,
          .pageClose st.nextPage true]⟩ := by
  obtain ⟨b, live, np⟩ := st
  obtain rfl : b = some pid := hb
  obtain rfl : live = true := hl
  obtain ⟨h1, h2, h3, h4, h5, h6⟩ := hw
  simp [runTry, createPage, h1, h2, h3, h4]

/-- A fully successful `keepAlive=false` run: the page is closed, the
browser is closed and its process tree killed, the process is no longer
live. -/
theorem runTry_teardown_allOk (st : SimState) (w : World) (pid : Nat)
    (hb : st.browser = some pid) (hl : st.processLive = true) (hpid : pid ≠ 0)
    (hw : allOk w) :
    runTry false st w =
      ⟨⟨some pid, false, st.nextPage + 1⟩, .ok (),
        [.newPage st.nextPage, .closeFirstPage, .goto true, .extractEv true,
          .pageClose st.nextPage true, .browserClose true, .treeKillEv pid true]⟩ := by
  obtain ⟨b, live, np⟩ := st
  obtain rfl : b = some pid := hb
  obtain rfl : live = true := hl
  obtain ⟨h1, h2, h3, h4, h5, h6⟩ := hw
  simp [runTry, createPage, close, h1, h2, h3, h4, h5, h6, hpid]

/-- C7: on a successful run with `keepAlive=false`, both the per-run page
and the whole browsing context are torn down (page close, browser close and
process-tree kill all appear in the trace; afterwards no live browser
process remains); with `keepAlive=true` only the per-run page is closed,
the browser teardown never happens, the process stays live, and a second
`run` on the resulting state succeeds without any new `setup`. -/
theorem c7_keepAlive (st : SimState) (url : String) (w w2 : World) (pid : Nat)
    (hb : st.browser = some pid) (hl : st.processLive = true) (hpid : pid ≠ 0)
    (hu1 : url ≠ "") (hu2 : jsIncludes url "linkedin.com/" = true)
    (hw : allOk w) (hw2 : allOk w2) :
    ((run true st url w).res = .ok () ∧
      (run true st url w).st.browser = some pid ∧
      (run true st url w).st.processLive = true ∧
      Ev.pageClose st.nextPage true ∈ (run true st url w).tr ∧
      Ev.browserClose true ∉ (run true st url w).tr ∧
      Ev.browserClose false ∉ (run true st url w).tr ∧
      (run true (run true st url w).st url w2).res = .ok ()) ∧
    ((run false st url w).res = .ok () ∧
      (run false st url w).st.processLive = false ∧
      Ev.pageClose st.nextPage true ∈ (run false st url w).tr ∧
      Ev.browserClose true ∈ (run false st url w).tr ∧
      Ev.treeKillEv pid true ∈ (run false st url w).tr) := by
  have hrw : ∀ (k : Bool) (s : SimState) (w3 : World), s.browser = some pid →
      run k s url w3 = runTry k s w3 := by
    intro k s w3 hs
    rw [run, if_neg (by rw [hs]; simp), if_neg hu1, if_neg (by rw [hu2]; simp)]
  constructor
  · rw [hrw true st w hb, runTry_keepAlive_allOk st w pid hb hl hw]
    refine ⟨rfl, rfl, rfl, by simp, by simp, by simp, ?_⟩
    rw [hrw true ⟨some pid, true, st.nextPage + 1⟩ w2 rfl,
      runTry_keepAlive_allOk ⟨some pid, true, st.nextPage + 1⟩ w2 pid rfl rfl hw2]
  · rw [hrw false st w hb, runTry_teardown_allOk st w pid hb hl hpid hw]
    exact ⟨rfl, rfl, by simp, by simp, by simp⟩

/-- C7 witness. -/
theorem c7_witness :
    (run true ⟨some 7, true, 1⟩ "https://www.linkedin.com/in/x" wAllOk).res = .ok () ∧
    (run true (run true ⟨some 7, true, 1⟩ "https://www.linkedin.com/in/x" wAllOk).st
      "https://www.linkedin.com/in/x" wAllOk).res = .ok () ∧
    (run false ⟨some 7, true, 1⟩ "https://www.linkedin.com/in/x" wAllOk).st.processLive = false := by
  have h := c7_keepAlive ⟨some 7, true, 1⟩ "https://www.linkedin.com/in/x" wAllOk wAllOk 7
    rfl rfl (by decide) (by decide) (by decide)
    ⟨rfl, rfl, rfl, rfl, rfl, rfl⟩ ⟨rfl, rfl, rfl, rfl, rfl, rfl⟩
  exact ⟨h.1.1, h.1.2.2.2.2.2.2, h.2.2.1⟩

/-! ## Claim C9: `autoScroll` termination and stopping condition -/

/-- Helper: started at tick `tick` with accumulated height `500 * tick`,
the scroll loop reaches the first stopping tick `n` (where the height
re-read at `n` is at most the accumulated `500 * (n+1)`) with `n - tick + 1`
ticks of fuel. -/
theorem autoScroll_reaches (heights : Nat → Nat) (n : Nat) :
    ∀ k tick, n = tick + k →
      heights n ≤ 500 * (n + 1) →
      (∀ m, tick ≤ m → m < n → 500 * (m + 1) < heights m) →
      autoScroll heights (500 * tick) tick (k + 1) = some n := by
  intro k
  induction k with
  | zero =>
    intro tick hn hP _
    obtain rfl : n = tick := by omega
    rw [autoScroll]
    rw [if_pos (by omega)]
  | succ k ih =>
    intro tick hn hP hmin
    have hlt : 500 * (tick + 1) < heights tick := hmin tick le_rfl (by omega)
    rw [autoScroll]
    rw [if_neg (by omega)]
    have harith : 500 * tick + 500 = 500 * (tick + 1) := by ring
    rw [harith]
    exact ih (tick + 1) (by omega) hP (fun m hm1 hm2 => hmin m (by omega) hm2)

/-- C9: whenever the sequence of scroll-height readings is bounded, the
scroll loop terminates (some finite fuel suffices), and it stops exactly at
the first tick whose freshly re-read height has been reached by the
accumulated 500-per-tick distance — at every earlier tick the height read
there still exceeded the accumulated distance, so growth of the document
during scrolling extends the loop. -/
theorem c9_autoScroll (heights : Nat → Nat) (hB : ∃ B, ∀ k, heights k ≤ B) :
    ∃ fuel n, autoScroll heights 0 0 fuel = some n ∧
      heights n ≤ 500 * (n + 1) ∧
      ∀ m, m < n → 500 * (m + 1) < heights m := by
  obtain ⟨B, hb⟩ := hB
  have hex : ∃ n, heights n ≤ 500 * (n + 1) := ⟨B, le_trans (hb B) (by omega)⟩
  have hPn : heights (Nat.find hex) ≤ 500 * (Nat.find hex + 1) := Nat.find_spec hex
  have hmin : ∀ m, m < Nat.find hex → ¬ (heights m ≤ 500 * (m + 1)) :=
    fun m hm => Nat.find_min hex hm
  refine ⟨Nat.find hex + 1, Nat.find hex, ?_, hPn, fun m hm => by
    have := hmin m hm; omega⟩
  have h := autoScroll_reaches heights (Nat.find hex) (Nat.find hex) 0 (by omega) hPn
    (fun m _ hm2 => by have := hmin m hm2; omega)
  simpa using h

/-- C9 witness: a constant 1200-pixel document; the loop stops at tick 2,
the first tick at which the accumulated distance (1500) reaches the
height. -/
theorem c9_witness :
    (∃ B, ∀ k, (fun _ : Nat => 1200) k ≤ B) ∧
    (∃ fuel n, autoScroll (fun _ : Nat => 1200) 0 0 fuel = some n ∧
      (fun _ : Nat => 1200) n ≤ 500 * (n + 1) ∧
      ∀ m, m < n → 500 * (m + 1) < (fun _ : Nat => 1200) m) :=
  ⟨⟨1200, fun _ => le_rfl⟩, c9_autoScroll (fun _ => 1200) ⟨1200, fun _ => le_rfl⟩⟩

end LinkedInScraper
